import Mathlib

/-!
Verification of the employee directory service (`src/main.py`): a shallow
embedding of the data model (SQLAlchemy `Employee` table), the request
validation (pydantic `EmployeeCreate`), and the two endpoint handlers
(`create_employee`, `get_employee`), together with theorems settling the
specification claims.
-/

namespace EmployeeApi

/-- The persisted row of the `employees` table (`Employee` in `main.py`):
`id` integer primary key; `name`, `last_name`, `email`, `employee_number`
non-nullable strings; `alias`, `phone_number` nullable strings; `email` and
`employee_number` carry UNIQUE constraints (modelled in `insertEmployee`). -/
structure Employee where
  id : Nat
  name : String
  last_name : String
  «alias» : Option String
  email : String
  phone_number : Option String
  employee_number : String
deriving Repr, DecidableEq

/-- The validated request body (pydantic `EmployeeCreate`): `name`,
`last_name`, `email`, `employee_number` required; `alias` and
`phone_number` optional with default `None`. -/
structure EmployeeCreate where
  name : String
  last_name : String
  «alias» : Option String
  email : String
  phone_number : Option String
  employee_number : String
deriving Repr, DecidableEq

/-- A raw JSON request body before pydantic validation: every field may be
absent. -/
structure RawInput where
  name : Option String
  last_name : Option String
  «alias» : Option String
  email : Option String
  phone_number : Option String
  employee_number : Option String
deriving Repr, DecidableEq

/-- Modelled from the spec: `email` is "required, must conform to standard
email syntax". The source delegates this check to the external pydantic
`EmailStr` validator, which is not part of this repository; we model it as
an executable syntactic check: exactly one `@`, a nonempty local part, and
a nonempty domain that contains a dot and neither starts nor ends with one. -/
def isValidEmail (s : String) : Bool :=
  let cs := s.toList
  cs.count '@' == 1 &&
  (let lp := cs.takeWhile (fun c => c != '@')
   let dom := (cs.dropWhile (fun c => c != '@')).drop 1
   !lp.isEmpty && !dom.isEmpty && dom.contains '.' &&
     dom.head? != some '.' && dom.getLast? != some '.')

/-- The list of field names that fail pydantic validation on a raw body:
a required field that is absent, or a present `email` that fails the
syntax check. -/
def fieldErrors (r : RawInput) : List String :=
  (if r.name.isNone then ["name"] else []) ++
  (if r.last_name.isNone then ["last_name"] else []) ++
  (match r.email with
   | none => ["email"]
   | some e => if isValidEmail e then [] else ["email"]) ++
  (if r.employee_number.isNone then ["employee_number"] else [])

/-- Pydantic validation of the request body against `EmployeeCreate`:
succeeds iff all required fields are present and the email is
syntactically valid; on failure reports the offending field names. -/
def validate (r : RawInput) : Except (List String) EmployeeCreate :=
  match r.name, r.last_name, r.email, r.employee_number with
  | some n, some l, some e, some en =>
      if isValidEmail e then Except.ok ⟨n, l, r.«alias», e, r.phone_number, en⟩
      else Except.error (fieldErrors r)
  | _, _, _, _ => Except.error (fieldErrors r)

/-- The state of the SQLite store: the rows of the `employees` table in
insertion order, and the next value of the autoincrementing primary key. -/
structure Store where
  employees : List Employee
  nextId : Nat
deriving Repr, DecidableEq

/-- The store right after `Base.metadata.create_all`: empty table, first
assigned id is 1. -/
def emptyStore : Store := ⟨[], 1⟩

/-- Does some row already hold this email? (the UNIQUE constraint check). -/
def hasEmail (s : Store) (e : String) : Bool :=
  s.employees.any (fun r => r.email == e)

/-- Does some row already hold this employee number? (the UNIQUE
constraint check). -/
def hasEmpNum (s : Store) (en : String) : Bool :=
  s.employees.any (fun r => r.employee_number == en)

/-- An exception raised by the database layer during `db.commit()`:
an integrity error for a UNIQUE-constraint violation, or an operational
error for any other store failure (e.g. an unreachable database file). -/
inductive DbError where
  | integrityError (msg : String)
  | operationalError (msg : String)
deriving Repr, DecidableEq

/-- The message carried by a database exception (`str(e)` in the handler). -/
def DbError.message : DbError → String
  | .integrityError m => m
  | .operationalError m => m

/-- An `HTTPException(status_code, detail)` surfaced to the caller. -/
structure HTTPError where
  status : Nat
  detail : String
deriving Repr, DecidableEq

/-- The `except` clause of `create_employee` (main.py lines 63-65): any
database exception triggers `db.rollback()` — the store is returned
unchanged — and an `HTTPException(400, "Error: " + str(e))` is raised. -/
def dbExceptionHandler (e : DbError) (s : Store) :
    Except HTTPError Employee × Store :=
  (Except.error ⟨400, "Error: " ++ e.message⟩, s)

/-- `db.add` + `db.commit` of a new row: the UNIQUE constraints on `email`
and `employee_number` are checked; on violation the commit raises an
integrity error, otherwise the row is appended and the id counter
advances. -/
def insertEmployee (emp : Employee) (s : Store) : Except DbError Store :=
  if hasEmail s emp.email then
    Except.error (DbError.integrityError "UNIQUE constraint failed: employees.email")
  else if hasEmpNum s emp.employee_number then
    Except.error (DbError.integrityError "UNIQUE constraint failed: employees.employee_number")
  else
    Except.ok ⟨s.employees ++ [emp], s.nextId + 1⟩

/-- The `create_employee` endpoint body (main.py lines 57-66): build an
`Employee` from the validated input with the store-assigned id, try to
insert and commit it; on success return the persisted record, on any
database exception roll back and raise HTTP 400. -/
def create_employee (input : EmployeeCreate) (s : Store) :
    Except HTTPError Employee × Store :=
  let emp : Employee :=
    ⟨s.nextId, input.name, input.last_name, input.«alias», input.email,
     input.phone_number, input.employee_number⟩
  match insertEmployee emp s with
  | Except.ok s2 => (Except.ok emp, s2)
  | Except.error e => dbExceptionHandler e s

/-- The framework response for a request-body validation failure: the
request never reaches the endpoint body, so the store is untouched. -/
def validationResponse (errs : List String) : HTTPError :=
  ⟨422, "field required or invalid: " ++ String.intercalate ", " errs⟩

/-- The full `POST /employee/` pipeline: pydantic validation of the raw
body, then the `create_employee` endpoint body on success. -/
def handleCreate (raw : RawInput) (s : Store) :
    Except HTTPError Employee × Store :=
  match validate raw with
  | Except.error errs => (Except.error (validationResponse errs), s)
  | Except.ok input => create_employee input s

/-- The `get_employee` endpoint (main.py lines 70-74): the first row whose
`alias` column equals the path parameter, under SQL equality — a NULL
`alias` never matches; if none matches, HTTP 404 "Employee not found". -/
def get_employee («alias» : String) (s : Store) :
    Except HTTPError Employee × Store :=
  match s.employees.find? (fun r => r.«alias» == some «alias») with
  | some emp => (Except.ok emp, s)
  | none => (Except.error ⟨404, "Employee not found"⟩, s)

/-- An API operation: a creation request or a lookup request. -/
inductive Op where
  | create (raw : RawInput)
  | get («alias» : String)
deriving Repr, DecidableEq

/-- The store state after handling one operation. -/
def applyOp (s : Store) : Op → Store
  | .create raw => (handleCreate raw s).2
  | .get a => (get_employee a s).2

/-- The store state after handling a sequence of operations. -/
def runOps (s : Store) (ops : List Op) : Store :=
  ops.foldl applyOp s

/-- The uniqueness invariant of the table: no two rows share an email and
no two rows share an employee number. -/
def uniqueKeys (s : Store) : Prop :=
  (s.employees.map Employee.email).Nodup ∧
  (s.employees.map Employee.employee_number).Nodup

/-! Concrete fixtures: the spec's concrete scenario and small variants. -/

/-- The spec's concrete creation request: Ana Diaz, no alias. -/
def anaRaw : RawInput :=
  ⟨some "Ana", some "Diaz", none, some "ana@x.com", none, some "E1"⟩

/-- The record the service persists for `anaRaw` in the empty store. -/
def anaEmp : Employee := ⟨1, "Ana", "Diaz", none, "ana@x.com", none, "E1"⟩

/-- The store after creating Ana in the empty store. -/
def storeAna : Store := ⟨[anaEmp], 2⟩

/-- A second creation request reusing employee number `E1`. -/
def bobRaw : RawInput :=
  ⟨some "Bob", some "Perez", none, some "bob@x.com", none, some "E1"⟩

/-- The validated body of `bobRaw`. -/
def bobInput : EmployeeCreate := ⟨"Bob", "Perez", none, "bob@x.com", none, "E1"⟩

/-- Ana's request with an alias present. -/
def anaAliasRaw : RawInput :=
  ⟨some "Ana", some "Diaz", some "adiaz", some "ana@x.com", none, some "E1"⟩

/-- The record persisted for `anaAliasRaw` in the empty store. -/
def anaAliasEmp : Employee :=
  ⟨1, "Ana", "Diaz", some "adiaz", "ana@x.com", none, "E1"⟩

/-- The store holding only `anaAliasEmp`. -/
def storeAnaAlias : Store := ⟨[anaAliasEmp], 2⟩

/-- A creation request whose `name` is the empty string. -/
def emptyNameRaw : RawInput :=
  ⟨some "", some "Diaz", none, some "ana@x.com", none, some "E1"⟩

/-- A creation request with no `email` field. -/
def missingEmailRaw : RawInput :=
  ⟨some "Ana", some "Diaz", none, none, none, some "E1"⟩

/-! Helper lemmas shared by several proofs. -/

/-- The lookup endpoint never changes the store (helper form). -/
theorem get_state_unchanged (k : String) (s : Store) : (get_employee k s).2 = s := by
  unfold get_employee
  split <;> rfl

/-- `find?` skips a block in which nothing matches. -/
theorem find?_append_none {α : Type} (p : α → Bool) (l1 l2 : List α)
    (h : l1.find? p = none) : (l1 ++ l2).find? p = l2.find? p := by
  rw [List.find?_append, h, Option.none_or]

/-- The create pipeline on a well-formed fresh request: the generic
success computation, shared by several claims. -/
theorem handleCreate_success (raw : RawInput) (s : Store) (n l e en : String)
    (hn : raw.name = some n) (hl : raw.last_name = some l)
    (he : raw.email = some e) (hen : raw.employee_number = some en)
    (hv : isValidEmail e = true)
    (hfe : hasEmail s e = false) (hfn : hasEmpNum s en = false) :
    handleCreate raw s =
      (Except.ok ⟨s.nextId, n, l, raw.«alias», e, raw.phone_number, en⟩,
       ⟨s.employees ++ [⟨s.nextId, n, l, raw.«alias», e, raw.phone_number, en⟩],
        s.nextId + 1⟩) := by
  obtain ⟨n?, l?, a?, e?, p?, en?⟩ := raw
  obtain rfl : n? = some n := hn
  obtain rfl : l? = some l := hl
  obtain rfl : e? = some e := he
  obtain rfl : en? = some en := hen
  simp [handleCreate, validate, hv, create_employee, insertEmployee, hfe, hfn]

/-- C1: for every input whose fields are valid (required fields present,
email syntactically valid) and whose email and employee number match no
existing record, `CreateEmployee` succeeds, persists the record, and
returns a record whose `name`, `last_name`, `alias`, `email`,
`phone_number` and `employee_number` equal the input fields and which
carries the newly store-assigned id. -/
theorem C1_create_valid_fresh (raw : RawInput) (s : Store) (n l e en : String)
    (hn : raw.name = some n) (hl : raw.last_name = some l)
    (he : raw.email = some e) (hen : raw.employee_number = some en)
    (hv : isValidEmail e = true)
    (hfe : hasEmail s e = false) (hfn : hasEmpNum s en = false) :
    handleCreate raw s =
      (Except.ok ⟨s.nextId, n, l, raw.«alias», e, raw.phone_number, en⟩,
       ⟨s.employees ++ [⟨s.nextId, n, l, raw.«alias», e, raw.phone_number, en⟩],
        s.nextId + 1⟩) :=
  handleCreate_success raw s n l e en hn hl he hen hv hfe hfn

/-- C1 witness: creating Ana in the empty store succeeds with id 1. -/
theorem C1_create_valid_fresh_witness :
    handleCreate anaRaw emptyStore = (Except.ok anaEmp, storeAna) :=
  C1_create_valid_fresh anaRaw emptyStore "Ana" "Diaz" "ana@x.com" "E1"
    rfl rfl rfl rfl (by decide) rfl rfl

/-- C9: `GetEmployeeByKey` has no side effects: for every key value and
every store state, the store after the lookup (hit or 404) equals the
store before it. -/
theorem C9_get_no_side_effects (k : String) (s : Store) :
    (get_employee k s).2 = s := by
  unfold get_employee
  split <;> rfl

/-- C10: a record created without an alias can never be returned by the
lookup endpoint: whatever record the lookup returns has a non-null alias,
so a null-alias record is unreachable through `GetEmployeeByKey`. -/
theorem C10_null_alias_unreachable (k : String) (s : Store) (emp : Employee)
    (h : (get_employee k s).1 = Except.ok emp) : emp.«alias» ≠ none := by
  unfold get_employee at h
  cases hf : s.employees.find? (fun r => r.«alias» == some k) with
  | none => rw [hf] at h; cases h
  | some r =>
    rw [hf] at h
    simp only [Except.ok.injEq] at h
    subst h
    have hp := List.find?_some hf
    simp only [beq_iff_eq] at hp
    simp [hp]

/-- C10 witness: the returned record for key `adiaz` has a present alias. -/
theorem C10_null_alias_unreachable_witness : anaAliasEmp.«alias» ≠ none :=
  C10_null_alias_unreachable "adiaz" storeAnaAlias anaAliasEmp rfl

/-- C6: a lookup whose key value matches no record's alias fails with
HTTP 404 and the fixed message "Employee not found". -/
theorem C6_lookup_miss_not_found (k : String) (s : Store)
    (h : ∀ r ∈ s.employees, r.«alias» ≠ some k) :
    get_employee k s = (Except.error ⟨404, "Employee not found"⟩, s) := by
  have hf : s.employees.find? (fun r => r.«alias» == some k) = none := by
    rw [List.find?_eq_none]
    intro x hx
    simpa using h x hx
  simp [get_employee, hf]

/-- C6 witness: fetching key `E2` from the store holding only Ana
returns 404 "Employee not found". -/
theorem C6_lookup_miss_not_found_witness :
    get_employee "E2" storeAna = (Except.error ⟨404, "Employee not found"⟩, storeAna) :=
  C6_lookup_miss_not_found "E2" storeAna (by decide)

/-- In a store whose key column is duplicate-free, a key value held by
some row is held by exactly one row. -/
theorem unique_column_count (f : Employee → String) (v : String) (s : Store)
    (hnd : (s.employees.map f).Nodup)
    (hany : s.employees.any (fun r => f r == v) = true) :
    (s.employees.filter (fun r => f r == v)).length = 1 := by
  have hmem : v ∈ s.employees.map f := by
    rw [List.any_eq_true] at hany
    obtain ⟨r, hr, hrv⟩ := hany
    rw [beq_iff_eq] at hrv
    exact hrv ▸ List.mem_map_of_mem f hr
  have h1 : (s.employees.map f).count v = 1 :=
    List.nodup_iff_count_eq_one.mp hnd v hmem
  calc (s.employees.filter (fun r => f r == v)).length
      = s.employees.countP (fun r => f r == v) :=
        (List.countP_eq_length_filter _ _).symm
    _ = (s.employees.map f).countP (fun x => x == v) := by
        rw [List.countP_map]; rfl
    _ = (s.employees.map f).count v := (List.count_eq_countP _ _).symm
    _ = 1 := h1

/-- C2: creating a record whose email or employee number equals that of an
already-persisted record fails with the conflict error (HTTP 400, a UNIQUE
constraint message), the store is left unchanged (no partial write), and
exactly one record with the duplicated key exists afterwards. -/
theorem C2_duplicate_key_conflict (raw : RawInput) (input : EmployeeCreate)
    (s : Store)
    (hval : validate raw = Except.ok input)
    (hdup : hasEmail s input.email = true ∨
      hasEmpNum s input.employee_number = true)
    (hinv : uniqueKeys s) :
    (∃ c, (handleCreate raw s).1 =
        Except.error ⟨400, "Error: UNIQUE constraint failed: " ++ c⟩) ∧
    (handleCreate raw s).2 = s ∧
    (hasEmail s input.email = true →
      (s.employees.filter (fun r => r.email == input.email)).length = 1) ∧
    (hasEmpNum s input.employee_number = true →
      (s.employees.filter (fun r => r.employee_number == input.employee_number)).length = 1) := by
  have hcnt1 : hasEmail s input.email = true →
      (s.employees.filter (fun r => r.email == input.email)).length = 1 :=
    fun h => unique_column_count Employee.email input.email s hinv.1 h
  have hcnt2 : hasEmpNum s input.employee_number = true →
      (s.employees.filter (fun r => r.employee_number == input.employee_number)).length = 1 :=
    fun h => unique_column_count Employee.employee_number input.employee_number s hinv.2 h
  refine ⟨?_, ?_, hcnt1, hcnt2⟩ <;>
  · simp only [handleCreate, hval]
    cases he : hasEmail s input.email with
    | true =>
      simp [create_employee, insertEmployee, he, dbExceptionHandler]
      try exact ⟨"employees.email", rfl⟩
    | false =>
      have hn : hasEmpNum s input.employee_number = true := by
        rcases hdup with h | h
        · rw [he] at h; cases h
        · exact h
      simp [create_employee, insertEmployee, he, hn, dbExceptionHandler]
      try exact ⟨"employees.employee_number", rfl⟩

/-- C2 witness: creating Bob with Ana's employee number `E1` in the store
holding Ana fails with the conflict error and leaves exactly Ana. -/
theorem C2_duplicate_key_conflict_witness :
    (∃ c, (handleCreate bobRaw storeAna).1 =
        Except.error ⟨400, "Error: UNIQUE constraint failed: " ++ c⟩) ∧
    (handleCreate bobRaw storeAna).2 = storeAna ∧
    (hasEmail storeAna bobInput.email = true →
      (storeAna.employees.filter (fun r => r.email == bobInput.email)).length = 1) ∧
    (hasEmpNum storeAna bobInput.employee_number = true →
      (storeAna.employees.filter
        (fun r => r.employee_number == bobInput.employee_number)).length = 1) :=
  C2_duplicate_key_conflict bobRaw bobInput storeAna rfl (Or.inr rfl)
    ⟨by decide, by decide⟩

/-- C3 counterexample: in the spec's concrete scenario, creating Ana
(`employee_number` `E1`, no alias) succeeds with id 1, but fetching by
`E1` returns 404 "Employee not found" instead of the created record,
because the lookup endpoint filters on the `alias` column. -/
theorem C3_counterexample :
    (handleCreate anaRaw emptyStore).1 = Except.ok anaEmp ∧
    get_employee "E1" (handleCreate anaRaw emptyStore).2 =
      (Except.error ⟨404, "Employee not found"⟩,
       (handleCreate anaRaw emptyStore).2) :=
  ⟨rfl, rfl⟩

/-- C3 amended: the configured lookup key of this code is `alias`; for
every valid fresh input whose alias is present and matches no existing
record's alias, creating the record and then fetching by that alias value
returns a record equal to the one returned at creation time. -/
theorem C3_roundtrip_by_alias (raw : RawInput) (s : Store)
    (n l a e en : String)
    (hn : raw.name = some n) (hl : raw.last_name = some l)
    (ha : raw.«alias» = some a)
    (he : raw.email = some e) (hen : raw.employee_number = some en)
    (hv : isValidEmail e = true)
    (hfe : hasEmail s e = false) (hfn : hasEmpNum s en = false)
    (hfa : s.employees.find? (fun r => r.«alias» == some a) = none) :
    (handleCreate raw s).1 =
      Except.ok ⟨s.nextId, n, l, some a, e, raw.phone_number, en⟩ ∧
    get_employee a (handleCreate raw s).2 =
      (Except.ok ⟨s.nextId, n, l, some a, e, raw.phone_number, en⟩,
       (handleCreate raw s).2) := by
  have h1 := handleCreate_success raw s n l e en hn hl he hen hv hfe hfn
  rw [ha] at h1
  rw [h1]
  refine ⟨rfl, ?_⟩
  unfold get_employee
  rw [find?_append_none _ _ _ hfa]
  simp [List.find?]

/-- C3 amended witness: creating Ana with alias `adiaz` in the empty
store and fetching by `adiaz` returns the created record. -/
theorem C3_roundtrip_by_alias_witness :
    (handleCreate anaAliasRaw emptyStore).1 = Except.ok anaAliasEmp ∧
    get_employee "adiaz" (handleCreate anaAliasRaw emptyStore).2 =
      (Except.ok anaAliasEmp, (handleCreate anaAliasRaw emptyStore).2) :=
  C3_roundtrip_by_alias anaAliasRaw emptyStore "Ana" "Diaz" "adiaz"
    "ana@x.com" "E1" rfl rfl rfl rfl rfl (by decide) rfl rfl rfl

/-- C4 counterexample: a request whose `name` is the empty string is not
rejected with a validation error — it succeeds and the record is
persisted, since validation checks only field presence and email syntax,
not non-emptiness. -/
theorem C4_counterexample :
    (handleCreate emptyNameRaw emptyStore).1 =
      Except.ok ⟨1, "", "Diaz", none, "ana@x.com", none, "E1"⟩ ∧
    (handleCreate emptyNameRaw emptyStore).2.employees =
      [⟨1, "", "Diaz", none, "ana@x.com", none, "E1"⟩] :=
  ⟨rfl, rfl⟩

/-- C4 amended: an input in which `name`, `last_name`, or
`employee_number` is the empty string is not rejected: provided the
required fields are present, the email is syntactically valid and the
keys are fresh, `CreateEmployee` succeeds and persists the record —
validation enforces presence, not non-emptiness. -/
theorem C4_empty_fields_accepted (raw : RawInput) (s : Store)
    (n l e en : String)
    (_hempty : n = "" ∨ l = "" ∨ en = "")
    (hn : raw.name = some n) (hl : raw.last_name = some l)
    (he : raw.email = some e) (hen : raw.employee_number = some en)
    (hv : isValidEmail e = true)
    (hfe : hasEmail s e = false) (hfn : hasEmpNum s en = false) :
    handleCreate raw s =
      (Except.ok ⟨s.nextId, n, l, raw.«alias», e, raw.phone_number, en⟩,
       ⟨s.employees ++ [⟨s.nextId, n, l, raw.«alias», e, raw.phone_number, en⟩],
        s.nextId + 1⟩) :=
  handleCreate_success raw s n l e en hn hl he hen hv hfe hfn

/-- C4 amended witness: the empty-name request succeeds in the empty
store and its record is persisted. -/
theorem C4_empty_fields_accepted_witness :
    handleCreate emptyNameRaw emptyStore =
      (Except.ok ⟨1, "", "Diaz", none, "ana@x.com", none, "E1"⟩,
       ⟨[⟨1, "", "Diaz", none, "ana@x.com", none, "E1"⟩], 2⟩) :=
  C4_empty_fields_accepted emptyNameRaw emptyStore "" "Diaz" "ana@x.com" "E1"
    (Or.inl rfl) rfl rfl rfl rfl (by decide) rfl rfl

/-- C5: an input missing `name`, `last_name`, `email`, or
`employee_number`, or whose email is syntactically invalid, makes
`CreateEmployee` fail with the validation error, and the store is
unchanged (no record is persisted). -/
theorem C5_invalid_input_rejected (raw : RawInput) (s : Store)
    (h : raw.name = none ∨ raw.last_name = none ∨ raw.email = none ∨
      raw.employee_number = none ∨
      ∃ e, raw.email = some e ∧ isValidEmail e = false) :
    ∃ errs, handleCreate raw s = (Except.error (validationResponse errs), s) := by
  obtain ⟨n?, l?, a?, e?, p?, en?⟩ := raw
  cases n? with
  | none => exact ⟨_, rfl⟩
  | some n =>
  cases l? with
  | none => exact ⟨_, rfl⟩
  | some l =>
  cases e? with
  | none => exact ⟨_, rfl⟩
  | some e0 =>
  cases en? with
  | none => exact ⟨_, rfl⟩
  | some en =>
  have hv : isValidEmail e0 = false := by
    rcases h with h | h | h | h | ⟨e, he, hv⟩
    · simp at h
    · simp at h
    · simp at h
    · simp at h
    · have he2 : some e0 = some e := he
      obtain rfl := Option.some.inj he2
      exact hv
  exact ⟨fieldErrors ⟨some n, some l, a?, some e0, p?, some en⟩,
    by simp [handleCreate, validate, hv]⟩

/-- C5 witness: the request with no email field fails validation in the
empty store and nothing is persisted. -/
theorem C5_invalid_input_rejected_witness :
    ∃ errs, handleCreate missingEmailRaw emptyStore =
      (Except.error (validationResponse errs), emptyStore) :=
  C5_invalid_input_rejected missingEmailRaw emptyStore
    (Or.inr (Or.inr (Or.inl rfl)))

/-- C7 counterexample: a non-uniqueness store failure (operational error:
unavailable database) is surfaced exactly like a conflict — the same
HTTP status 400 and the same "Error: " message shape — so no distinct
`UnavailableError` classification exists in the code. -/
theorem C7_counterexample :
    dbExceptionHandler (DbError.operationalError "unable to open database file")
        emptyStore =
      (Except.error ⟨400, "Error: unable to open database file"⟩, emptyStore) ∧
    (dbExceptionHandler
        (DbError.integrityError "UNIQUE constraint failed: employees.email")
        emptyStore).1 =
      Except.error ⟨400, "Error: UNIQUE constraint failed: employees.email"⟩ ∧
    (⟨400, "Error: unable to open database file"⟩ : HTTPError).status =
      (⟨400, "Error: UNIQUE constraint failed: employees.email"⟩ : HTTPError).status :=
  ⟨rfl, rfl, rfl⟩

/-- C7 amended: any store failure during `CreateEmployee`, uniqueness
violation or not, is handled by the single except clause: the rollback
leaves the store unchanged (no partial write) and an HTTP 400 error with
detail "Error: " plus the exception message is signalled — an
operational (unavailable-store) failure produces the very same response
shape as a conflict, not a distinct `UnavailableError` class. -/
theorem C7_store_failure_uniform (e : DbError) (s : Store) :
    (dbExceptionHandler e s).2 = s ∧
    (dbExceptionHandler e s).1 =
      Except.error ⟨400, "Error: " ++ e.message⟩ ∧
    ∀ m : String, (dbExceptionHandler (DbError.operationalError m) s).1 =
      (dbExceptionHandler (DbError.integrityError m) s).1 :=
  ⟨rfl, rfl, fun _ => rfl⟩

/-- A key value absent from a column (its membership test is false) is
not in the mapped column values. -/
theorem not_mem_map_of_any_false (f : Employee → String) (v : String)
    (l : List Employee) (h : l.any (fun r => f r == v) = false) :
    v ∉ l.map f := by
  intro hmem
  obtain ⟨r, hr, hrv⟩ := List.mem_map.mp hmem
  have ht : l.any (fun r => f r == v) = true :=
    List.any_eq_true.mpr ⟨r, hr, by simp [hrv]⟩
  rw [h] at ht
  cases ht

/-- Appending one element with a fresh projection keeps the mapped list
duplicate-free. -/
theorem nodup_map_append_singleton {α β : Type} (f : α → β) (l : List α)
    (x : α) (h : (l.map f).Nodup) (hx : f x ∉ l.map f) :
    ((l ++ [x]).map f).Nodup := by
  rw [List.map_append, List.nodup_append]
  refine ⟨h, List.nodup_singleton _, ?_⟩
  simpa [List.disjoint_singleton] using hx

/-- One step of the service preserves the uniqueness invariant. -/
theorem uniqueKeys_applyOp {s : Store} (h : uniqueKeys s) (op : Op) :
    uniqueKeys (applyOp s op) := by
  cases op with
  | get a =>
    simpa only [applyOp, get_state_unchanged] using h
  | create raw =>
    simp only [applyOp, handleCreate]
    cases hval : validate raw with
    | error errs => exact h
    | ok input =>
      cases he : hasEmail s input.email with
      | true =>
        simpa [create_employee, insertEmployee, he, dbExceptionHandler] using h
      | false =>
        cases hn : hasEmpNum s input.employee_number with
        | true =>
          simpa [create_employee, insertEmployee, he, hn, dbExceptionHandler]
            using h
        | false =>
          have hememail : input.email ∉ s.employees.map Employee.email :=
            not_mem_map_of_any_false Employee.email input.email s.employees
              (by simpa [hasEmail] using he)
          have hemempnum :
              input.employee_number ∉ s.employees.map Employee.employee_number :=
            not_mem_map_of_any_false Employee.employee_number
              input.employee_number s.employees (by simpa [hasEmpNum] using hn)
          simp only [create_employee, insertEmployee, he, hn]
          refine And.intro ?_ ?_
          · exact nodup_map_append_singleton Employee.email s.employees _
              h.1 hememail
          · exact nodup_map_append_singleton Employee.employee_number
              s.employees _ h.2 hemempnum

/-- C8: in every store state reachable from the initial empty store by
any sequence of create and lookup operations, no two persisted records
share an email and no two share an employee number. -/
theorem C8_uniqueness_invariant (ops : List Op) :
    uniqueKeys (runOps emptyStore ops) := by
  have general : ∀ (l : List Op) (s : Store), uniqueKeys s →
      uniqueKeys (runOps s l) := by
    intro l
    induction l with
    | nil => intro s hs; exact hs
    | cons op rest ih =>
      intro s hs
      exact ih _ (uniqueKeys_applyOp hs op)
  exact general ops emptyStore ⟨List.nodup_nil, List.nodup_nil⟩

end EmployeeApi
